import Mathlib

/-!
Shallow embedding of the voice-agent session orchestrator.

The definitions below are translated from the TypeScript sources of the
repository:
  - `src/server/voiceAgentServer.ts` (session coordinator),
  - `src/server/webrtcServer.ts` (transport negotiator),
  - `src/services/deepgramSTT.ts` (recognition bridge),
  - `src/services/groqLLM.ts` (response pipeline),
  - `client/src/services/voiceAgentClient.ts` (control-channel client).

Outbound control messages (`sendMessage` / `sendError` on the WebSocket) are
modelled as lists of `ServerMsg` values returned by each handler; the
WebSocket handle itself carries no information relevant to the verified
properties.  The asynchronous streaming loop of `GroqLLM.streamCompletion`
is modelled as a small-step system (`GroqLLM.step`): in the JavaScript
runtime the body of the `for await` loop runs atomically between `await`
points, and calls such as `stop()` or a second `streamCompletion` can
interleave exactly at those points.
-/

/-- Executable model of JavaScript's `String.prototype.trim()` (used as
    `transcript.trim()` / `fullResponse.trim()` throughout the sources):
    removes whitespace from both ends of the string. -/
def jsTrim (s : String) : String :=
  String.mk (((s.data.dropWhile Char.isWhitespace).reverse.dropWhile
    Char.isWhitespace).reverse)

/-- Role tag of one conversation turn (`Message.role` in
    `voiceAgentServer.ts`). -/
inductive Role where
  | system
  | user
  | assistant
  deriving DecidableEq

/-- One conversation turn (`Message` in `voiceAgentServer.ts`). -/
structure Message where
  role : Role
  content : String
  deriving DecidableEq

/-- A WebRTC session description as carried in `webrtc_offer` /
    `webrtc_answer` control messages (`{type, sdp}`). -/
structure RTCOffer where
  type : String
  sdp : String
  deriving DecidableEq

/-- Server-to-client control messages (`sendMessage` payloads in
    `voiceAgentServer.ts`, tagged union on the `type` field). -/
inductive ServerMsg where
  | sessionReady (sessionId : String)
  | conversationStarted
  | conversationStopped
  | sttTranscript (transcript : String) (isFinal : Bool)
  | llmToken (token : String)
  | llmComplete (response : String)
  | ttsText (text : String)
  | interrupted
  | webrtcAnswer (answer : RTCOffer)
  | webrtcIceCandidate (candidate : String)
  | error (msg : String)
  deriving DecidableEq

/-- Mutable state of one `GroqLLM` instance (`groqLLM.ts`):
    `currentStream` holds the in-flight stream handle (modelled by the
    numeric id of the `streamCompletion` invocation that created it) and
    `fullResponse` is the running accumulation buffer. -/
structure GroqLLM where
  currentStream : Option Nat
  fullResponse : String
  deriving DecidableEq

/-- A freshly constructed `GroqLLM` (constructor in `groqLLM.ts`): no
    in-flight stream, empty accumulation buffer. -/
def GroqLLM.initial : GroqLLM :=
  { currentStream := none, fullResponse := "" }

/-- `GroqLLM.stop` (`groqLLM.ts` lines 89-96): if a stream handle is held
    it is discarded and the accumulation buffer is cleared; otherwise a
    no-op.  The underlying SDK stream is NOT cancelled (the source comment
    notes the SDK has no explicit stream cancellation). -/
def GroqLLM.stop (g : GroqLLM) : GroqLLM :=
  if g.currentStream.isSome then { currentStream := none, fullResponse := "" } else g

/-- Outputs of the response pipeline (the `onToken` / `onComplete`
    callbacks of `groqLLM.ts`). -/
inductive LLMOut where
  | token (content : String)
  | complete (fullResponse : String)
  deriving DecidableEq

/-- Atomic events of a `GroqLLM` instance, one per segment of
    `streamCompletion` between `await` points, plus the synchronous
    `stop()` call:
    - `start history id`: the entry of `streamCompletion` invocation `id`
      up to `this.currentStream = stream` (`groqLLM.ts` lines 22-56);
    - `chunk id content`: one iteration of invocation `id`'s
      `for await` loop (lines 58-68) — the loop iterates its own local
      `stream` variable and never consults `this.currentStream`, so the
      `id` tag only records provenance and is ignored by the step;
    - `streamEnd id`: the code after invocation `id`'s loop
      (lines 70-75);
    - `stopCall`: a call to `stop()` interleaved at an `await` point. -/
inductive LLMEvent where
  | start (history : List Message) (id : Nat)
  | chunk (id : Nat) (content : String)
  | streamEnd (id : Nat)
  | stopCall
  deriving DecidableEq

/-- One atomic step of a `GroqLLM` instance; returns the new instance
    state and the outputs emitted during the step. -/
def GroqLLM.step (g : GroqLLM) : LLMEvent → GroqLLM × List LLMOut
  | LLMEvent.start history id =>
      let g1 := GroqLLM.stop g
      let g2 : GroqLLM := { g1 with fullResponse := "" }
      if history.isEmpty then (g2, [])
      else ({ g2 with currentStream := some id }, [])
  | LLMEvent.chunk _ content =>
      if content = "" then (g, [])
      else ({ g with fullResponse := g.fullResponse ++ content },
            [LLMOut.token content])
  | LLMEvent.streamEnd _ =>
      ({ g with currentStream := none },
       if jsTrim g.fullResponse = "" then [] else [LLMOut.complete g.fullResponse])
  | LLMEvent.stopCall => (GroqLLM.stop g, [])

/-- Run a sequence of atomic events, concatenating the emitted outputs in
    order. -/
def GroqLLM.run (g : GroqLLM) : List LLMEvent → GroqLLM × List LLMOut
  | [] => (g, [])
  | e :: es =>
      let r := GroqLLM.step g e
      let r2 := GroqLLM.run r.1 es
      (r2.1, r.2 ++ r2.2)

/-- The tokens forwarded by an uninterrupted run of the streaming loop
    over the given chunk contents: exactly the non-empty contents, in
    order (`groqLLM.ts` lines 58-68, `if (content)` guard). -/
def GroqLLM.sequentialTokens (chunks : List String) : List String :=
  chunks.filter (fun c => c != "")

/-- The accumulated `fullResponse` after an uninterrupted run over the
    given chunk contents. -/
def GroqLLM.sequentialResponse (chunks : List String) : String :=
  String.join (GroqLLM.sequentialTokens chunks)

/-- Raw transcript payload received from the recognition engine
    (`deepgramSTT.ts` Transcript handler: `data.channel.alternatives[0]
    .transcript` defaulted to the empty string, and `data.is_final`
    defaulted to `false`). -/
structure DeepgramResult where
  transcript : String
  is_final : Bool
  deriving DecidableEq

/-- The Transcript handler of `DeepgramSTT.start` (`deepgramSTT.ts` lines
    54-70), assuming an `onTranscript` callback is installed: forwards
    `(transcript, isFinal)` only when the transcript is non-empty and
    non-blank; otherwise (silence/noise) forwards nothing. -/
def DeepgramSTT.onTranscriptEvent (d : DeepgramResult) : Option (String × Bool) :=
  if d.transcript ≠ "" ∧ jsTrim d.transcript ≠ "" then some (d.transcript, d.is_final)
  else none

/-- One server-side session record (`ClientSession` in
    `voiceAgentServer.ts`).  The `ws` handle is omitted; `hasSTT` records
    whether the optional `deepgramSTT` field is populated, and `groqLLM`
    carries the response-pipeline instance state when populated.
    `useWebRTC : Option Bool` mirrors the optional boolean field
    (`undefined` before first assignment). -/
structure ClientSession where
  sessionId : String
  isActive : Bool
  conversationHistory : List Message
  useWebRTC : Option Bool
  hasSTT : Bool
  groqLLM : Option GroqLLM
  deriving DecidableEq

/-- The fixed system turn seeded at conversation start
    (`voiceAgentServer.ts` lines 212-215). -/
def systemPrompt : String :=
  "You are a helpful, friendly, and concise AI assistant. Keep responses brief and conversational for voice interaction. Respond in 1-2 sentences."

/-- The code's readiness mark for the negotiated transport: the session's
    `useWebRTC` flag is `true`.  Fallback audio is accepted exactly while
    this mark is absent. -/
def transportMarkedReady (s : ClientSession) : Bool :=
  s.useWebRTC == some true

/-- The rollback guard of `processLLM`'s catch block
    (`voiceAgentServer.ts` line 275:
    `conversationHistory[length - 1]?.role === 'user'`). -/
def VoiceAgentServer.lastTurnIsUser (hist : List Message) : Bool :=
  match hist.getLast? with
  | some m => m.role == Role.user
  | none => false

/-- `VoiceAgentServer.processLLM` (`voiceAgentServer.ts` lines 267-280).
    The outcome of `groqLLM.streamCompletion` is passed explicitly:
    `Except.ok chunks` is a successful stream delivering the given chunk
    contents (tokens forwarded via `onToken`, completion via `onComplete`
    wired at lines 227-241), `Except.error e` is a thrown
    `ResponseGenerationError`.  On failure the provisional user turn is
    popped and an error control message is sent. -/
def VoiceAgentServer.processLLM (s : ClientSession) (transcript : String)
    (outcome : Except String (List String)) : ClientSession × List ServerMsg :=
  if s.groqLLM = none ∨ s.isActive = false ∨ jsTrim transcript = "" then (s, [])
  else
    let hist := s.conversationHistory ++ [{ role := Role.user, content := jsTrim transcript }]
    match outcome with
    | Except.ok chunks =>
        let toks := GroqLLM.sequentialTokens chunks
        let full := GroqLLM.sequentialResponse chunks
        if jsTrim full = "" then
          ({ s with conversationHistory := hist }, toks.map ServerMsg.llmToken)
        else
          ({ s with conversationHistory :=
               hist ++ [{ role := Role.assistant, content := jsTrim full }] },
           toks.map ServerMsg.llmToken
             ++ [ServerMsg.llmComplete full, ServerMsg.ttsText full])
    | Except.error e =>
        let hist2 := if VoiceAgentServer.lastTurnIsUser hist then hist.dropLast else hist
        ({ s with conversationHistory := hist2 }, [ServerMsg.error e])

/-- The `onTranscript` wiring installed by `startConversation`
    (`voiceAgentServer.ts` lines 220-225): every forwarded transcript is
    echoed as an `stt_transcript` control message, and `processLLM` is
    invoked exactly when `isFinal` holds and the transcript is non-blank. -/
def VoiceAgentServer.serverOnTranscript (s : ClientSession) (transcript : String)
    (isFinal : Bool) (outcome : Except String (List String)) :
    ClientSession × List ServerMsg :=
  let echo := [ServerMsg.sttTranscript transcript isFinal]
  if isFinal = true ∧ jsTrim transcript ≠ "" then
    let r := VoiceAgentServer.processLLM s transcript outcome
    (r.1, echo ++ r.2)
  else (s, echo)

/-- The `audio_chunk` case of `VoiceAgentServer.handleMessage`
    (`voiceAgentServer.ts` lines 162-170): the chunk is forwarded to the
    recognition bridge (`deepgramSTT.sendAudio`) iff the session is
    active, a recognition bridge exists, and `useWebRTC !== true`.
    Returns the forwarded payload, if any. -/
def VoiceAgentServer.handleAudioChunk (s : ClientSession) (data : String) :
    Option String :=
  if s.isActive = true ∧ s.hasSTT = true ∧ s.useWebRTC ≠ some true then some data
  else none

/-- Transport-negotiator events delivered to the coordinator
    (`setupWebRTC` in `voiceAgentServer.ts`, lines 73-114).  The
    underlying `webrtcServer.ts` emits `connectionStateChange` only for
    the states connected / disconnected / failed / closed. -/
inductive TransportEvent where
  | connectionStateChange (state : String)
  | iceConnectionFailed
  | dataChannelOpen
  | dataChannelClose
  deriving DecidableEq

/-- Effect of one transport-negotiator event on the session record
    (`voiceAgentServer.ts` lines 74-113): `useWebRTC` is continuously
    reassigned — `state === 'connected'` on a connection-state change,
    `false` on ICE failure or data-channel close, `true` on data-channel
    open. -/
def VoiceAgentServer.applyTransportEvent (s : ClientSession) :
    TransportEvent → ClientSession
  | TransportEvent.connectionStateChange st =>
      { s with useWebRTC := some (st == "connected") }
  | TransportEvent.iceConnectionFailed => { s with useWebRTC := some false }
  | TransportEvent.dataChannelOpen => { s with useWebRTC := some true }
  | TransportEvent.dataChannelClose => { s with useWebRTC := some false }

/-- Modelled from the spec: the external negotiation stack (the `werift`
    library, an out-of-scope collaborator) rejects a remote description
    whose SDP string is empty — `setRemoteDescription` in
    `WebRTCServer.handleOffer` throws, and per the spec's negotiator
    contract the offer must have a non-empty description. -/
def setRemoteDescriptionResult (sdp : String) : Except String Unit :=
  if sdp = "" then Except.error "invalid remote description" else Except.ok ()

/-- The local answer description produced by `createAnswer` /
    `setLocalDescription` on the success path of `handleOffer`
    (`webrtcServer.ts` lines 134-142); its contents are opaque to the
    coordinator. -/
def WebRTCServer.localAnswer : RTCOffer :=
  { type := "answer", sdp := "v=0" }

/-- `WebRTCServer.handleOffer` (`webrtcServer.ts` lines 115-147): sets
    the remote description, rethrowing any failure of the negotiation
    stack; on success returns the generated local answer. -/
def WebRTCServer.handleOffer (offer : RTCOffer) : Except String RTCOffer :=
  match setRemoteDescriptionResult offer.sdp with
  | Except.error e => Except.error e
  | Except.ok _ => Except.ok WebRTCServer.localAnswer

/-- `VoiceAgentServer.handleWebRTCOffer` (`voiceAgentServer.ts` lines
    186-195): marks `useWebRTC = true`, delegates to
    `webrtcServer.handleOffer`, and sends either a `webrtc_answer`
    message or a single `error` message. -/
def VoiceAgentServer.handleWebRTCOffer (s : ClientSession) (offer : RTCOffer) :
    ClientSession × List ServerMsg :=
  let s1 : ClientSession := { s with useWebRTC := some true }
  match WebRTCServer.handleOffer offer with
  | Except.ok answer => (s1, [ServerMsg.webrtcAnswer answer])
  | Except.error e => (s1, [ServerMsg.error ("WebRTC setup error: " ++ e)])

/-- `VoiceAgentServer.handleInterrupt` (`voiceAgentServer.ts` lines
    262-265): stops the response pipeline if present, then
    unconditionally sends one `interrupted` control message. -/
def VoiceAgentServer.handleInterrupt (s : ClientSession) :
    ClientSession × List ServerMsg :=
  ({ s with groqLLM := s.groqLLM.map GroqLLM.stop }, [ServerMsg.interrupted])

/-- `VoiceAgentServer.startConversation` (`voiceAgentServer.ts` lines
    206-253).  `sttStartOk` is the outcome of `deepgramSTT.start()`:
    on success the history is seeded, fresh bridge and pipeline instances
    are installed, the session becomes active and `conversation_started`
    is sent; on failure an error message is sent and the session is
    cleaned up (deactivated and removed from the registry).  If the
    session is already active the handler returns immediately. -/
def VoiceAgentServer.startConversation (s : ClientSession) (sttStartOk : Bool) :
    ClientSession × List ServerMsg :=
  if s.isActive = true then (s, [])
  else if sttStartOk then
    ({ s with
        conversationHistory := [{ role := Role.system, content := systemPrompt }],
        hasSTT := true, groqLLM := some GroqLLM.initial, isActive := true },
     [ServerMsg.conversationStarted])
  else
    ({ s with
        conversationHistory := [{ role := Role.system, content := systemPrompt }],
        hasSTT := true, groqLLM := some GroqLLM.initial, isActive := false },
     [ServerMsg.error "Failed to start conversation"])

/-- The three per-session resources released by
    `VoiceAgentServer.cleanupSession`. -/
inductive Resource where
  | transportNegotiator
  | recognitionBridge
  | responsePipeline
  deriving DecidableEq

/-- Failure environment for a teardown run: whether the native
    `peerConnection.close()` call throws, and whether the recognition
    engine's `connection.finish()` call throws. -/
structure TeardownEnv where
  peerCloseThrows : Bool
  sttFinishThrows : Bool
  deriving DecidableEq

/-- The `connection.finish()` call inside `DeepgramSTT.stop`
    (`deepgramSTT.ts` line 140). -/
def DeepgramSTT.finishCall (env : TeardownEnv) : Except String Unit :=
  if env.sttFinishThrows then Except.error "finish failed" else Except.ok ()

/-- `DeepgramSTT.stop` (`deepgramSTT.ts` lines 137-146): `finish()` is
    wrapped in try/catch, so the stop itself never propagates a failure. -/
def DeepgramSTT.stopRun (env : TeardownEnv) : Except String Unit :=
  match DeepgramSTT.finishCall env with
  | Except.error _ => Except.ok ()
  | Except.ok _ => Except.ok ()

/-- `WebRTCServer.cleanup` (`webrtcServer.ts` lines 173-184): calls
    `peerConnection.close()` with no guard, so a throwing close
    propagates to the caller. -/
def WebRTCServer.cleanupRun (env : TeardownEnv) : Except String Unit :=
  if env.peerCloseThrows then Except.error "peer close failed" else Except.ok ()

/-- `GroqLLM.stop` as a release call: a pure field reset, never throws. -/
def GroqLLM.stopRun : Except String Unit := Except.ok ()

/-- `VoiceAgentServer.cleanupSession` (`voiceAgentServer.ts` lines
    282-293) as a release trace: `webrtcServer.cleanup` runs first, then
    (if present) `deepgramSTT.stop`, then (if present) `groqLLM.stop`.
    There is no try/catch in the coordinator, so a throw from the
    transport cleanup aborts the remaining releases.  Returns the ordered
    list of release calls made and whether the teardown ran to
    completion. -/
def VoiceAgentServer.cleanupSessionRun (hasSTT hasLLM : Bool) (env : TeardownEnv) :
    List Resource × Bool :=
  match WebRTCServer.cleanupRun env with
  | Except.error _ => ([Resource.transportNegotiator], false)
  | Except.ok _ =>
      ([Resource.transportNegotiator]
        ++ (if hasSTT then [Resource.recognitionBridge] else [])
        ++ (if hasLLM then [Resource.responsePipeline] else []), true)

/-- State of the peer-side control-channel client
    (`voiceAgentClient.ts`, `VoiceAgentClient` fields at lines 11-13). -/
structure VoiceAgentClient where
  reconnectAttempts : Nat
  maxReconnectAttempts : Nat
  reconnectDelay : Nat
  deriving DecidableEq

/-- A freshly constructed `VoiceAgentClient`: zero attempts so far,
    maximum of 5 automatic attempts, base delay 1000 ms. -/
def VoiceAgentClient.initial : VoiceAgentClient :=
  { reconnectAttempts := 0, maxReconnectAttempts := 5, reconnectDelay := 1000 }

/-- `VoiceAgentClient.attemptReconnect` (`voiceAgentClient.ts` lines
    74-81): while under the attempt cap, increments the counter and
    schedules a reconnect after `reconnectDelay * reconnectAttempts`
    (evaluated after the increment); otherwise does nothing.  Returns the
    scheduled delay, if any. -/
def VoiceAgentClient.attemptReconnect (c : VoiceAgentClient) :
    VoiceAgentClient × Option Nat :=
  if c.reconnectAttempts < c.maxReconnectAttempts then
    ({ c with reconnectAttempts := c.reconnectAttempts + 1 },
     some (c.reconnectDelay * (c.reconnectAttempts + 1)))
  else (c, none)

/-- The `onopen` handler of `VoiceAgentClient.connect`
    (`voiceAgentClient.ts` lines 24-27): a fresh successful connection
    resets the attempt counter. -/
def VoiceAgentClient.onOpen (c : VoiceAgentClient) : VoiceAgentClient :=
  { c with reconnectAttempts := 0 }

/-- Client state after `n` consecutive failed connections (each close
    event invoking `attemptReconnect` once), starting from a fresh
    client. -/
def VoiceAgentClient.stateAfterCloses : Nat → VoiceAgentClient
  | 0 => VoiceAgentClient.initial
  | n + 1 =>
      (VoiceAgentClient.attemptReconnect (VoiceAgentClient.stateAfterCloses n)).1

/-- The delay scheduled before automatic reconnect attempt `n` (1-based),
    in a run of consecutive failures from a fresh client; `none` when no
    attempt is scheduled. -/
def VoiceAgentClient.delayBeforeAttempt (n : Nat) : Option Nat :=
  (VoiceAgentClient.attemptReconnect (VoiceAgentClient.stateAfterCloses (n - 1))).2

/-- A concrete active session with an in-flight response-pipeline stream,
    used by the witness theorems. -/
def demoSession : ClientSession :=
  { sessionId := "session_demo"
    isActive := true
    conversationHistory := [{ role := Role.system, content := systemPrompt }]
    useWebRTC := none
    hasSTT := true
    groqLLM := some { currentStream := some 0, fullResponse := "Hello" } }

/-- A concrete non-empty conversation history, used by counterexample and
    witness theorems. -/
def demoHistory : List Message :=
  [{ role := Role.user, content := "hi" }]

/-- Helper: after `GroqLLM.stop`, no stream handle is held (both branches
    of the stop yield `currentStream = none`). -/
theorem GroqLLM.stop_currentStream (g : GroqLLM) :
    (GroqLLM.stop g).currentStream = none := by
  unfold GroqLLM.stop
  split
  · rfl
  · next h => exact Option.not_isSome_iff_eq_none.mp h

/-- Helper: the rollback guard holds for a history ending in the given
    turn exactly when that turn has role `user`. -/
theorem lastTurnIsUser_concat (H : List Message) (m : Message) :
    VoiceAgentServer.lastTurnIsUser (H ++ [m]) = (m.role == Role.user) := by
  simp [VoiceAgentServer.lastTurnIsUser, List.getLast?_concat]

/-- Helper: after `n` consecutive failed connections the client's attempt
    counter is `min n 5` and the constants are unchanged. -/
theorem VoiceAgentClient.stateAfterCloses_spec (n : Nat) :
    VoiceAgentClient.stateAfterCloses n
      = { reconnectAttempts := min n 5, maxReconnectAttempts := 5,
          reconnectDelay := 1000 } := by
  induction n with
  | zero => rfl
  | succ k ih =>
      unfold VoiceAgentClient.stateAfterCloses
      rw [ih]
      unfold VoiceAgentClient.attemptReconnect
      split
      · next h =>
          simp only [VoiceAgentClient.mk.injEq, and_true]
          simp only at h
          omega
      · next h =>
          simp only [VoiceAgentClient.mk.injEq, and_true]
          simp only at h
          omega

/-- C1 counterexample: sending `interrupt` twice in a row does NOT produce
    exactly one `interrupted` message — `handleInterrupt` sends the
    message unconditionally, so two consecutive interrupts on a concrete
    active session emit two `interrupted` messages. -/
theorem C1_interrupt_counterexample :
    ((VoiceAgentServer.handleInterrupt demoSession).2
        ++ (VoiceAgentServer.handleInterrupt
              (VoiceAgentServer.handleInterrupt demoSession).1).2)
      = [ServerMsg.interrupted, ServerMsg.interrupted]
    ∧ (((VoiceAgentServer.handleInterrupt demoSession).2
        ++ (VoiceAgentServer.handleInterrupt
              (VoiceAgentServer.handleInterrupt demoSession).1).2).filter
          (fun m => m == ServerMsg.interrupted)).length ≠ 1 := by
  decide

/-- C1 (amended): every interrupt request emits exactly one `interrupted`
    message, so two consecutive interrupts emit one each (two in total);
    no `error` message is emitted; the session's top-level state
    (`isActive`, history) is unchanged; and any retained response
    pipeline has its in-flight stream handle discarded. -/
theorem C1_interrupt_amended (s : ClientSession) :
    (VoiceAgentServer.handleInterrupt s).2 = [ServerMsg.interrupted]
    ∧ (VoiceAgentServer.handleInterrupt
        (VoiceAgentServer.handleInterrupt s).1).2 = [ServerMsg.interrupted]
    ∧ (∀ e, ServerMsg.error e ∉
        (VoiceAgentServer.handleInterrupt s).2
          ++ (VoiceAgentServer.handleInterrupt
                (VoiceAgentServer.handleInterrupt s).1).2)
    ∧ (VoiceAgentServer.handleInterrupt s).1.isActive = s.isActive
    ∧ (VoiceAgentServer.handleInterrupt s).1.conversationHistory
        = s.conversationHistory
    ∧ (∀ g, (VoiceAgentServer.handleInterrupt s).1.groqLLM = some g →
        g.currentStream = none) := by
  refine ⟨rfl, rfl, ?_, rfl, rfl, ?_⟩
  · intro e
    simp [VoiceAgentServer.handleInterrupt]
  · intro g hg
    simp only [VoiceAgentServer.handleInterrupt, Option.map_eq_some'] at hg
    obtain ⟨a, _, ha⟩ := hg
    rw [← ha]
    exact GroqLLM.stop_currentStream a

/-- C1 witness: the amended theorem evaluated on a concrete session with
    an in-flight stream. -/
theorem C1_interrupt_amended_witness :
    (VoiceAgentServer.handleInterrupt demoSession).2 = [ServerMsg.interrupted]
    ∧ ∃ g, (VoiceAgentServer.handleInterrupt demoSession).1.groqLLM = some g
        ∧ g.currentStream = none :=
  ⟨(C1_interrupt_amended demoSession).1,
   GroqLLM.initial, by decide,
   (C1_interrupt_amended demoSession).2.2.2.2.2 GroqLLM.initial (by decide)⟩

/-- C2 counterexample: two completions CAN run concurrently for the same
    pipeline instance.  Invocation 0 starts and emits one token; then
    invocation 1 starts (its entry calls `stop()`, discarding the
    handle); yet a pending loop iteration of invocation 0 still emits its
    token afterwards, so the outputs of the two completions interleave. -/
theorem C2_single_flight_counterexample :
    (GroqLLM.run GroqLLM.initial
        [LLMEvent.start demoHistory 0, LLMEvent.chunk 0 "Hel",
         LLMEvent.start demoHistory 1]).1.currentStream = some 1
    ∧ (GroqLLM.run GroqLLM.initial
        [LLMEvent.start demoHistory 0, LLMEvent.chunk 0 "Hel",
         LLMEvent.start demoHistory 1, LLMEvent.chunk 0 "lo"]).2
      = [LLMOut.token "Hel", LLMOut.token "lo"] := by
  decide

/-- C2 (amended): the entry of `streamCompletion` does cancel-then-replace
    on the stream HANDLE — after a new invocation's start, the handle is
    exactly the new stream and the buffer is cleared, so at most one
    handle is retained — but the replaced invocation's loop is not
    terminated: any of its later chunk iterations still forwards its
    token, so tokens of two completions may interleave. -/
theorem C2_single_flight_amended (g : GroqLLM) (hist : List Message) (id : Nat)
    (h : hist.isEmpty = false) :
    GroqLLM.step g (LLMEvent.start hist id)
      = ({ currentStream := some id, fullResponse := "" }, [])
    ∧ ∀ (g2 : GroqLLM) (j : Nat) (c : String), c ≠ "" →
        (GroqLLM.step g2 (LLMEvent.chunk j c)).2 = [LLMOut.token c] := by
  constructor
  · cases g with
    | mk cs fr =>
        simp only [GroqLLM.step, GroqLLM.stop, h]
        cases cs <;> simp
  · intro g2 j c hc
    simp [GroqLLM.step, hc]

/-- C2 witness: the amended theorem evaluated at a concrete in-flight
    state and a concrete late chunk. -/
theorem C2_single_flight_amended_witness :
    GroqLLM.step { currentStream := some 0, fullResponse := "Hel" }
        (LLMEvent.start demoHistory 1)
      = ({ currentStream := some 1, fullResponse := "" }, [])
    ∧ (GroqLLM.step { currentStream := some 1, fullResponse := "" }
        (LLMEvent.chunk 0 "lo")).2 = [LLMOut.token "lo"] :=
  ⟨(C2_single_flight_amended { currentStream := some 0, fullResponse := "Hel" }
      demoHistory 1 (by decide)).1,
   (C2_single_flight_amended { currentStream := some 0, fullResponse := "Hel" }
      demoHistory 1 (by decide)).2
     { currentStream := some 1, fullResponse := "" } 0 "lo" (by decide)⟩

/-- C3: if the generation request fails, the provisional user turn is
    rolled back — the history length after the failure equals the length
    before the triggering user turn was appended — and a single error
    control message is reported instead. -/
theorem C3_failed_generation_rollback (s : ClientSession) (t e : String)
    (h1 : s.groqLLM ≠ none) (h2 : s.isActive = true) (h3 : jsTrim t ≠ "") :
    (VoiceAgentServer.processLLM s t (Except.error e)).1.conversationHistory.length
      = s.conversationHistory.length
    ∧ (VoiceAgentServer.processLLM s t (Except.error e)).2
      = [ServerMsg.error e] := by
  have hguard : ¬ (s.groqLLM = none ∨ s.isActive = false ∨ jsTrim t = "") := by
    push_neg
    exact ⟨h1, by simp [h2], h3⟩
  unfold VoiceAgentServer.processLLM
  rw [if_neg hguard]
  simp [lastTurnIsUser_concat, List.dropLast_concat]

/-- C3 witness: the rollback theorem evaluated on a concrete session and
    a failing generation. -/
theorem C3_failed_generation_rollback_witness :
    (VoiceAgentServer.processLLM demoSession "hi"
        (Except.error "boom")).1.conversationHistory.length
      = demoSession.conversationHistory.length
    ∧ (VoiceAgentServer.processLLM demoSession "hi" (Except.error "boom")).2
      = [ServerMsg.error "boom"] :=
  C3_failed_generation_rollback demoSession "hi" "boom" (by decide) (by decide)
    (by decide)

/-- C4 counterexample: after `stop()` the stream handle is discarded, yet
    a late-arriving chunk of the cancelled invocation is STILL forwarded
    via `onToken` — the streaming loop checks no cancellation flag. -/
theorem C4_silencing_counterexample :
    (GroqLLM.run GroqLLM.initial
        [LLMEvent.start demoHistory 0, LLMEvent.chunk 0 "a",
         LLMEvent.stopCall]).1.currentStream = none
    ∧ (GroqLLM.run GroqLLM.initial
        [LLMEvent.start demoHistory 0, LLMEvent.chunk 0 "a", LLMEvent.stopCall,
         LLMEvent.chunk 0 "b"]).2 = [LLMOut.token "a", LLMOut.token "b"] := by
  decide

/-- C4 (amended): `stop()` discards the in-flight stream handle, but does
    NOT silence the cancelled generation: any non-empty chunk arriving
    after the stop is still forwarded via `onToken`. -/
theorem C4_silencing_amended (g : GroqLLM) (j : Nat) (c : String) (h : c ≠ "") :
    (GroqLLM.stop g).currentStream = none
    ∧ (GroqLLM.step (GroqLLM.stop g) (LLMEvent.chunk j c)).2
      = [LLMOut.token c] := by
  refine ⟨GroqLLM.stop_currentStream g, ?_⟩
  simp [GroqLLM.step, h]

/-- C4 witness: the amended theorem evaluated at a concrete in-flight
    state and a concrete late chunk. -/
theorem C4_silencing_amended_witness :
    (GroqLLM.stop { currentStream := some 0, fullResponse := "a" }).currentStream
      = none
    ∧ (GroqLLM.step (GroqLLM.stop { currentStream := some 0, fullResponse := "a" })
        (LLMEvent.chunk 0 "b")).2 = [LLMOut.token "b"] :=
  C4_silencing_amended { currentStream := some 0, fullResponse := "a" } 0 "b"
    (by decide)

/-- C5: exactly the final transcripts with non-empty trimmed text invoke
    the response pipeline.  (1) A transcript that is blank after trimming
    is not even forwarded by the recognition bridge; (2) a blank
    transcript reaching the coordinator's handler — final or not — is
    only echoed, with the session unchanged; (3) `processLLM` itself
    refuses a blank transcript; (4) an interim (`isFinal = false`)
    transcript, blank or not, is only echoed and never invokes
    `processLLM`; (5) conversely, a final transcript with non-empty
    trimmed text does invoke `processLLM`. -/
theorem C5_final_nonblank_only_generation (s : ClientSession) (t : String)
    (isFinal : Bool) (o : Except String (List String)) :
    (jsTrim t = "" →
        DeepgramSTT.onTranscriptEvent { transcript := t, is_final := isFinal }
          = none)
    ∧ (jsTrim t = "" →
        VoiceAgentServer.serverOnTranscript s t isFinal o
          = (s, [ServerMsg.sttTranscript t isFinal]))
    ∧ (jsTrim t = "" → VoiceAgentServer.processLLM s t o = (s, []))
    ∧ VoiceAgentServer.serverOnTranscript s t false o
        = (s, [ServerMsg.sttTranscript t false])
    ∧ (isFinal = true → jsTrim t ≠ "" →
        VoiceAgentServer.serverOnTranscript s t isFinal o
          = ((VoiceAgentServer.processLLM s t o).1,
             ServerMsg.sttTranscript t isFinal
               :: (VoiceAgentServer.processLLM s t o).2)) := by
  refine ⟨?_, ?_, ?_, ?_, ?_⟩
  · intro h
    simp [DeepgramSTT.onTranscriptEvent, h]
  · intro h
    simp [VoiceAgentServer.serverOnTranscript, h]
  · intro h
    unfold VoiceAgentServer.processLLM
    rw [if_pos (Or.inr (Or.inr h))]
  · simp [VoiceAgentServer.serverOnTranscript]
  · intro hf ht
    simp [VoiceAgentServer.serverOnTranscript, hf, ht]

/-- C5 witness: the theorem evaluated on a whitespace-only final
    transcript (no generation), a non-blank interim transcript (no
    generation), and a non-blank final transcript (generation invoked). -/
theorem C5_final_nonblank_only_generation_witness :
    DeepgramSTT.onTranscriptEvent { transcript := " ", is_final := true } = none
    ∧ VoiceAgentServer.serverOnTranscript demoSession " " true
        (Except.error "x") = (demoSession, [ServerMsg.sttTranscript " " true])
    ∧ VoiceAgentServer.serverOnTranscript demoSession "hi" false
        (Except.error "x") = (demoSession, [ServerMsg.sttTranscript "hi" false])
    ∧ VoiceAgentServer.serverOnTranscript demoSession "hi" true
        (Except.error "x")
      = ((VoiceAgentServer.processLLM demoSession "hi" (Except.error "x")).1,
         ServerMsg.sttTranscript "hi" true
           :: (VoiceAgentServer.processLLM demoSession "hi"
                (Except.error "x")).2) :=
  ⟨(C5_final_nonblank_only_generation demoSession " " true
      (Except.error "x")).1 (by decide),
   (C5_final_nonblank_only_generation demoSession " " true
      (Except.error "x")).2.1 (by decide),
   (C5_final_nonblank_only_generation demoSession "hi" false
      (Except.error "x")).2.2.2.1,
   (C5_final_nonblank_only_generation demoSession "hi" true
      (Except.error "x")).2.2.2.2 rfl (by decide)⟩

/-- C6: for an active session with a recognition bridge, fallback
    `audio_chunk` messages are forwarded exactly while the transport is
    not marked ready (the `useWebRTC` flag is not `true`); after the data
    channel opens they are ignored; and after a subsequent data-channel
    close, ICE failure, or `failed` connection state they are accepted
    again — the priority is reevaluated on every chunk, not switched
    once. -/
theorem C6_fallback_priority (s : ClientSession) (d : String)
    (hA : s.isActive = true) (hS : s.hasSTT = true) :
    ((VoiceAgentServer.handleAudioChunk s d = some d)
        ↔ transportMarkedReady s = false)
    ∧ VoiceAgentServer.handleAudioChunk
        (VoiceAgentServer.applyTransportEvent s TransportEvent.dataChannelOpen) d
      = none
    ∧ VoiceAgentServer.handleAudioChunk
        (VoiceAgentServer.applyTransportEvent
          (VoiceAgentServer.applyTransportEvent s TransportEvent.dataChannelOpen)
          TransportEvent.dataChannelClose) d = some d
    ∧ VoiceAgentServer.handleAudioChunk
        (VoiceAgentServer.applyTransportEvent
          (VoiceAgentServer.applyTransportEvent s TransportEvent.dataChannelOpen)
          TransportEvent.iceConnectionFailed) d = some d
    ∧ VoiceAgentServer.handleAudioChunk
        (VoiceAgentServer.applyTransportEvent
          (VoiceAgentServer.applyTransportEvent s TransportEvent.dataChannelOpen)
          (TransportEvent.connectionStateChange "failed")) d = some d := by
  refine ⟨?_, ?_, ?_, ?_, ?_⟩ <;>
    simp [VoiceAgentServer.handleAudioChunk, VoiceAgentServer.applyTransportEvent,
      transportMarkedReady, hA, hS]

/-- C6 witness: the theorem evaluated on a concrete active session. -/
theorem C6_fallback_priority_witness :
    ((VoiceAgentServer.handleAudioChunk demoSession "pcm" = some "pcm")
        ↔ transportMarkedReady demoSession = false)
    ∧ VoiceAgentServer.handleAudioChunk
        (VoiceAgentServer.applyTransportEvent demoSession
          TransportEvent.dataChannelOpen) "pcm" = none :=
  ⟨(C6_fallback_priority demoSession "pcm" (by decide) (by decide)).1,
   (C6_fallback_priority demoSession "pcm" (by decide) (by decide)).2.1⟩

/-- C7: an offer with an empty SDP string makes `handleOffer` return an
    error; the coordinator then sends a single `error` control message
    and no `webrtc_answer` message. -/
theorem C7_empty_offer_no_answer (s : ClientSession) (ot : String) :
    (∃ e, WebRTCServer.handleOffer { type := ot, sdp := "" } = Except.error e)
    ∧ (∃ e, (VoiceAgentServer.handleWebRTCOffer s { type := ot, sdp := "" }).2
        = [ServerMsg.error e])
    ∧ ∀ a, ServerMsg.webrtcAnswer a ∉
        (VoiceAgentServer.handleWebRTCOffer s { type := ot, sdp := "" }).2 := by
  refine ⟨⟨"invalid remote description", rfl⟩,
    ⟨"WebRTC setup error: " ++ "invalid remote description", rfl⟩, ?_⟩
  intro a
  simp [VoiceAgentServer.handleWebRTCOffer, WebRTCServer.handleOffer,
    setRemoteDescriptionResult]

/-- C8 counterexample: `cleanupSession` releases the transport negotiator
    FIRST, then the recognition bridge, then the response pipeline — not
    the claimed recognition-bridge-first order — and the release calls
    are not independently guarded: when the transport cleanup throws, the
    recognition-bridge and response-pipeline releases never happen. -/
theorem C8_teardown_counterexample :
    (VoiceAgentServer.cleanupSessionRun true true
        { peerCloseThrows := false, sttFinishThrows := false }).1
      ≠ [Resource.recognitionBridge, Resource.responsePipeline,
         Resource.transportNegotiator]
    ∧ (VoiceAgentServer.cleanupSessionRun true true
        { peerCloseThrows := false, sttFinishThrows := false }).1
      = [Resource.transportNegotiator, Resource.recognitionBridge,
         Resource.responsePipeline]
    ∧ (VoiceAgentServer.cleanupSessionRun true true
        { peerCloseThrows := true, sttFinishThrows := false }).1
      = [Resource.transportNegotiator] := by
  decide

/-- C8 (amended): on teardown the coordinator releases the transport
    negotiator first, then the recognition bridge, then the response
    pipeline; the recognition-bridge release never propagates a failure
    (its engine call is guarded inside `DeepgramSTT.stop`), but the
    coordinator itself guards nothing: a throwing transport cleanup
    aborts the remaining releases. -/
theorem C8_teardown_amended (env : TeardownEnv) :
    (env.peerCloseThrows = false →
        VoiceAgentServer.cleanupSessionRun true true env
          = ([Resource.transportNegotiator, Resource.recognitionBridge,
              Resource.responsePipeline], true))
    ∧ (env.peerCloseThrows = true →
        VoiceAgentServer.cleanupSessionRun true true env
          = ([Resource.transportNegotiator], false))
    ∧ DeepgramSTT.stopRun env = Except.ok () := by
  refine ⟨?_, ?_, ?_⟩
  · intro h
    simp [VoiceAgentServer.cleanupSessionRun, WebRTCServer.cleanupRun, h]
  · intro h
    simp [VoiceAgentServer.cleanupSessionRun, WebRTCServer.cleanupRun, h]
  · unfold DeepgramSTT.stopRun
    split <;> rfl

/-- C8 witness: the amended theorem evaluated in an environment where the
    recognition engine's `finish()` call throws (and is swallowed). -/
theorem C8_teardown_amended_witness :
    VoiceAgentServer.cleanupSessionRun true true
        { peerCloseThrows := false, sttFinishThrows := true }
      = ([Resource.transportNegotiator, Resource.recognitionBridge,
          Resource.responsePipeline], true) :=
  (C8_teardown_amended { peerCloseThrows := false, sttFinishThrows := true }).1
    rfl

/-- C9: in a run of consecutive connection failures from a fresh client,
    the delay scheduled before reconnect attempt `n` (for `n` in 1..5) is
    `base * n` with `base = 1000`; from the 6th failure on, no further
    automatic attempt is scheduled; a fresh successful connection resets
    the attempt counter. -/
theorem C9_reconnect_backoff :
    (∀ n, 1 ≤ n → n ≤ 5 →
        VoiceAgentClient.delayBeforeAttempt n = some (1000 * n))
    ∧ (∀ m, 6 ≤ m → VoiceAgentClient.delayBeforeAttempt m = none)
    ∧ (∀ c : VoiceAgentClient,
        (VoiceAgentClient.onOpen c).reconnectAttempts = 0) := by
  refine ⟨?_, ?_, fun c => rfl⟩
  · intro n h1 h5
    unfold VoiceAgentClient.delayBeforeAttempt
    rw [VoiceAgentClient.stateAfterCloses_spec]
    unfold VoiceAgentClient.attemptReconnect
    rw [if_pos (by simp; omega)]
    simp
    omega
  · intro m hm
    unfold VoiceAgentClient.delayBeforeAttempt
    rw [VoiceAgentClient.stateAfterCloses_spec]
    unfold VoiceAgentClient.attemptReconnect
    rw [if_neg (by simp; omega)]

/-- C9 witness: the backoff theorem evaluated at attempts 3 and 6. -/
theorem C9_reconnect_backoff_witness :
    VoiceAgentClient.delayBeforeAttempt 3 = some 3000
    ∧ VoiceAgentClient.delayBeforeAttempt 6 = none :=
  ⟨C9_reconnect_backoff.1 3 (by decide) (by decide),
   C9_reconnect_backoff.2.1 6 (by decide)⟩

/-- C10: a further `start_conversation` on an already-active session is a
    complete silent no-op: no control message is emitted and the session
    record — history, bridge and pipeline instances, flags — is returned
    unchanged, whatever the recognition engine would have done. -/
theorem C10_start_noop (s : ClientSession) (sttStartOk : Bool)
    (h : s.isActive = true) :
    VoiceAgentServer.startConversation s sttStartOk = (s, []) := by
  unfold VoiceAgentServer.startConversation
  rw [if_pos h]

/-- C10 witness: the no-op theorem evaluated on a concrete active
    session. -/
theorem C10_start_noop_witness :
    VoiceAgentServer.startConversation demoSession true = (demoSession, []) :=
  C10_start_noop demoSession true (by decide)
